import Mathlib

/-!
Verification of the long-text TTS task-scheduling subsystem of the indexTTS
repository against its natural-language specification.

The definitions below are a shallow embedding of the Python sources under
`src/server` and `src/scripts`:

* `src/server/cache/redis_manager.py` — the Priority Queue (Redis sorted sets);
* `src/server/database/db_manager.py` — the Task Store (MySQL `tts_tasks` table);
* `src/server/utils/file_manager.py`  — the File Store layout;
* `src/server/task_worker.py`         — the worker poll loop and task processing;
* `src/scripts/cache_cleanup.py`      — the external retention/cleanup job.

Machine-level conventions: timestamps are naturals (seconds); MySQL rows are a
Lean structure; a table is a list of rows; Python exceptions are an explicit
`PyErr` value and fallible collaborators (file system, engine, network) are
passed in as `Except`-valued oracles, so that one embedded function covers every
outcome of the underlying I/O.
-/

/-- Python exception values raised by the embedded code.  `nameError` is the
`NameError` raised when a bare global name has no binding; `integrityError` is
the MySQL duplicate-primary-key error on INSERT; the remaining constructors
carry the message of storage / synthesis / connection failures. -/
inductive PyErr where
  | nameError : PyErr
  | integrityError : PyErr
  | storageError : String → PyErr
  | synthesisError : String → PyErr
  | connectionError : String → PyErr
deriving DecidableEq, Repr

/-- The text `str(e)` of an exception, as interpolated into log and error
messages by the Python sources. -/
def PyErr.msg : PyErr → String
  | .nameError => "name config is not defined"
  | .integrityError => "duplicate entry for key PRIMARY"
  | .storageError s => s
  | .synthesisError s => s
  | .connectionError s => s

/-! ## Priority Queue: `src/server/cache/redis_manager.py`

A Redis sorted set is a finite map from member strings to integer scores; the
whole Redis keyspace restricted to the queues is an association list from queue
key to sorted set. -/

/-- One Redis sorted set: members with their scores, at most one entry per
member, insertion order retained for newly added members. -/
abbrev Zset := List (String × Int)

/-- Redis ZADD: update the score if the member is present, append it
otherwise. -/
def zadd (z : Zset) (member : String) (score : Int) : Zset :=
  if z.any (fun e => e.1 == member) then
    z.map (fun e => if e.1 == member then (member, score) else e)
  else
    z ++ [(member, score)]

/-- The entry a ZPOPMAX call selects: highest score first, ties broken by the
lexicographically greatest member (the Redis tie-break for the max-pop). -/
def zmaxEntry (z : Zset) : Option (String × Int) :=
  z.foldl
    (fun acc e =>
      match acc with
      | none => some e
      | some b => if b.2 < e.2 ∨ (b.2 = e.2 ∧ b.1 < e.1) then some e else some b)
    none

/-- Redis ZPOPMAX: remove and return the maximum entry. -/
def zpopmax (z : Zset) : Option (String × Int) × Zset :=
  match zmaxEntry z with
  | some e => (some e, z.filter (fun x => x != e))
  | none => (none, z)

/-- The Redis keyspace restricted to the task queues. -/
abbrev Qstore := List (String × Zset)

/-- Read the sorted set stored at a key (a missing key reads as empty). -/
def getQueue (store : Qstore) (key : String) : Zset :=
  match store.find? (fun e => e.1 == key) with
  | some e => e.2
  | none => []

/-- Write back the sorted set stored at a key. -/
def setQueue (store : Qstore) (key : String) (z : Zset) : Qstore :=
  if store.any (fun e => e.1 == key) then
    store.map (fun e => if e.1 == key then (key, z) else e)
  else
    store ++ [(key, z)]

/-- The queue entry payload built by the submission API
(`src/server/api_server.py`, `submit_long_text_task`): the dict pushed to the
queue.  The untyped `metadata` dict is not modelled. -/
structure TaskData where
  task_id : String
  text : String := ""
  voice : String := ""
  priority : Int := 0
  callback_url : Option String := none
deriving DecidableEq, Repr

/-- JSON string literal (escaping of special characters is not modelled; the
members used in the development contain none). -/
def jsonStr (s : String) : String := "\"" ++ s ++ "\""

/-- JSON rendering of an optional string (`null` when absent). -/
def jsonOptStr : Option String → String
  | some s => jsonStr s
  | none => "null"

/-- The member identity used by `push_task_to_queue`:
`task_json = json.dumps(task_data)` — the serialized dict, keys in insertion
order, not the bare task_id. -/
def jsonEncode (td : TaskData) : String :=
  "\x7b\"task_id\": " ++ jsonStr td.task_id ++
  ", \"text\": " ++ jsonStr td.text ++
  ", \"voice\": " ++ jsonStr td.voice ++
  ", \"priority\": " ++ toString td.priority ++
  ", \"callback_url\": " ++ jsonOptStr td.callback_url ++ "\x7d"

/-- Resolution of the bare global name `config` inside the queue methods of
`redis_manager.py`.  The module imports the configuration only inside
`RedisManager.__init__` (`from ..config import config`, bound to
`self.config`); the module namespace itself has no binding named `config`, so
evaluating the f-string `f"{config.REDIS_QUEUE_PREFIX}:{task_type}"` in
`push_task_to_queue`, `pop_task_from_queue` and `get_queue_length` raises
`NameError` — which each method catches with its blanket `except Exception`. -/
def redisModuleConfig : Except PyErr String := .error .nameError

/-- Body of the `try` block of `RedisManager.push_task_to_queue`:
build `queue_key` from the module-level `config` (raises `NameError`), encode
the task dict, compute `score = priority * 1000000 + timestamp`, ZADD. -/
def pushAttempt (store : Qstore) (task_type : String) (task_data : TaskData)
    (priority : Int) (now : Nat) : Except PyErr Qstore := do
  let pfx ← redisModuleConfig
  let queue_key := pfx ++ ":" ++ task_type
  let task_json := jsonEncode task_data
  let score : Int := priority * 1000000 + (now : Int)
  pure (setQueue store queue_key (zadd (getQueue store queue_key) task_json score))

/-- `RedisManager.push_task_to_queue(task_type, task_data, priority)`: the
`try` body above, with `except Exception: return False` leaving the store
untouched. -/
def push_task_to_queue (store : Qstore) (task_type : String) (task_data : TaskData)
    (priority : Int) (now : Nat) : Bool × Qstore :=
  match pushAttempt store task_type task_data priority now with
  | .ok store2 => (true, store2)
  | .error _ => (false, store)

/-- Body of the `try` block of `RedisManager.pop_task_from_queue`: build
`queue_key` from the module-level `config` (raises `NameError`), ZPOPMAX, and
return the popped member (the JSON text; `json.loads` is not modelled since the
member is returned opaquely here). -/
def popAttempt (store : Qstore) (task_type : String) :
    Except PyErr (Option String × Qstore) := do
  let pfx ← redisModuleConfig
  let queue_key := pfx ++ ":" ++ task_type
  match zpopmax (getQueue store queue_key) with
  | (some e, z2) => pure (some e.1, setQueue store queue_key z2)
  | (none, _) => pure (none, store)

/-- `RedisManager.pop_task_from_queue(task_type)`: the `try` body above, with
`except Exception: return None` leaving the store untouched. -/
def pop_task_from_queue (store : Qstore) (task_type : String) :
    Option String × Qstore :=
  match popAttempt store task_type with
  | .ok r => r
  | .error _ => (none, store)

/-- Body of the `try` block of `RedisManager.get_queue_length`: build
`queue_key` from the module-level `config` (raises `NameError`), ZCARD. -/
def lenAttempt (store : Qstore) (task_type : String) : Except PyErr Nat := do
  let pfx ← redisModuleConfig
  let queue_key := pfx ++ ":" ++ task_type
  pure (getQueue store queue_key).length

/-- `RedisManager.get_queue_length(task_type)`: the `try` body above, with
`except Exception: return 0`. -/
def get_queue_length (store : Qstore) (task_type : String) : Nat :=
  match lenAttempt store task_type with
  | .ok n => n
  | .error _ => 0

/-- Total number of entries across every queue of the store. -/
def totalEntries (store : Qstore) : Nat :=
  (store.map (fun e => e.2.length)).sum

/-! ## Task Store: `src/server/database/db_manager.py`

The `tts_tasks` MySQL table.  A row carries the columns the scheduling
subsystem reads or writes; the audit-only columns `text_preview`,
`task_directory`, `payload` and `updated_at`, and the result columns that
`update_task_status` accepts as parameters but never adds to its update list
(`result`, `srt`, `processing_time`, `actual_duration`, `file_size`), are not
modelled because no claim depends on them. -/

structure TaskRow where
  task_id : String
  task_type : String := "long_text"
  status : String := "pending"
  voice : String := ""
  text_file_path : Option String := none
  callback_url : Option String := none
  created_at : Nat := 0
  started_at : Option Nat := none
  completed_at : Option Nat := none
  audio_file_path : Option String := none
  audio_url : Option String := none
  srt_file_path : Option String := none
  srt_url : Option String := none
  error_message : Option String := none
deriving DecidableEq, Repr

/-- The `tts_tasks` table, in insertion order. -/
abbrev Db := List TaskRow

/-- `SELECT * FROM tts_tasks WHERE task_id = %s` (first match; `task_id` is the
primary key, so at most one row matches in any database the system builds). -/
def lookupTask (db : Db) (tid : String) : Option TaskRow :=
  db.find? (fun r => r.task_id == tid)

/-- Column assignment guarded by the Python `is not None` check: the column is
overwritten only when the argument was supplied. -/
def updCol (arg old : Option String) : Option String :=
  match arg with
  | some v => some v
  | none => old

/-- The optional column assignments of `DatabaseManager.update_task_status`:
each field is appended to the UPDATE list only when the corresponding Python
argument is not None, `status` is always assigned, and `completed_at = NOW()`
is appended exactly when the new status is `completed` or `failed`. -/
def applyStatusUpdate (r : TaskRow) (status : String)
    (audio_file_path audio_url srt_file_path srt_url error_message : Option String)
    (now : Nat) : TaskRow :=
  { r with
    status := status
    audio_file_path := updCol audio_file_path r.audio_file_path
    audio_url := updCol audio_url r.audio_url
    srt_file_path := updCol srt_file_path r.srt_file_path
    srt_url := updCol srt_url r.srt_url
    error_message := updCol error_message r.error_message
    completed_at :=
      if status = "completed" ∨ status = "failed" then some now else r.completed_at }

/-- The row image of the `update_task_status` UPDATE statement: every row
matching `task_id` gets the column assignments, the others are untouched. -/
def statusMapped (db : Db) (tid status : String)
    (audio_file_path audio_url srt_file_path srt_url error_message : Option String)
    (now : Nat) : Db :=
  db.map (fun r =>
    if r.task_id == tid then
      applyStatusUpdate r status audio_file_path audio_url srt_file_path srt_url
        error_message now
    else r)

/-- `DatabaseManager.update_task_status(task_id, status, ...)`: one UPDATE on
the rows matching `task_id`, with **no condition on the current status** — the
WHERE clause is `WHERE task_id = %s` only.  The returned boolean is
`cursor.rowcount > 0`; the pool is opened without CLIENT_FOUND_ROWS, so MySQL
reports the number of rows actually *changed* — false when no row matches or
the assignments leave the row as it was. -/
def update_task_status (db : Db) (tid : String) (status : String)
    (audio_file_path audio_url srt_file_path srt_url error_message : Option String)
    (now : Nat) : Bool × Db :=
  if statusMapped db tid status audio_file_path audio_url srt_file_path srt_url
      error_message now = db then
    (false, db)
  else
    (true, statusMapped db tid status audio_file_path audio_url srt_file_path srt_url
      error_message now)

def filesMapped (db : Db) (tid : String)
    (audio_file_path audio_url srt_file_path srt_url : Option String) : Db :=
  db.map (fun r =>
    if r.task_id == tid then
      { r with
        audio_file_path := updCol audio_file_path r.audio_file_path
        audio_url := updCol audio_url r.audio_url
        srt_file_path := updCol srt_file_path r.srt_file_path
        srt_url := updCol srt_url r.srt_url }
    else r)

/-- `DatabaseManager.update_task_files(task_id, ...)`: UPDATE of the file-path
and URL columns only (plus `updated_at`, not modelled); returns True
immediately when no argument is given, else `cursor.rowcount > 0`. -/
def update_task_files (db : Db) (tid : String)
    (audio_file_path audio_url srt_file_path srt_url : Option String) : Bool × Db :=
  if audio_file_path = none ∧ audio_url = none ∧ srt_file_path = none ∧
      srt_url = none then
    (true, db)
  else if filesMapped db tid audio_file_path audio_url srt_file_path srt_url = db then
    (false, db)
  else
    (true, filesMapped db tid audio_file_path audio_url srt_file_path srt_url)

/-- Outcomes of the collaborators invoked by task creation: directory creation
(`TaskFileManager.create_task_directory`, uncaught on failure), the text write
(`TaskFileManager.save_text_file`, re-raises on failure), and the INSERT
statement (connection loss raises). -/
structure CreateIO where
  dirRes : Except PyErr String
  saveRes : Except PyErr String
  insertRes : Except PyErr Unit
deriving Repr

/-- `DatabaseManager._save_text_to_file`: the text write wrapped in
`try/except` — on any exception it logs and **returns None** instead of
propagating, so the caller continues with a null `text_file_path`. -/
def save_text_to_file (saveRes : Except PyErr String) : Option String :=
  match saveRes with
  | .ok p => some p
  | .error _ => none

/-- A freshly inserted `tts_tasks` row: the INSERT lists task_id, task_type,
task_directory, text_file_path, text_preview, voice, payload and callback_url,
leaving `status` at its `pending` default and every timestamp and result
column NULL (except `created_at`). -/
def newTaskRow (taskType tid voice : String) (text_file_path callback_url : Option String)
    (now : Nat) : TaskRow :=
  { task_id := tid
    task_type := taskType
    status := "pending"
    voice := voice
    text_file_path := text_file_path
    callback_url := callback_url
    created_at := now }

/-- `DatabaseManager.create_long_text_task(text, voice, ..., callback_url)`:
create the task directory (failure propagates), save the text through
`_save_text_to_file` (failure swallowed, path becomes None), then INSERT the
row with the table defaults `status = pending`, `started_at = NULL`,
`completed_at = NULL`; a duplicate primary key or a lost connection makes the
INSERT raise, which propagates to the caller. -/
def create_long_text_task (io : CreateIO) (db : Db) (task_id : String) (text voice : String)
    (callback_url : Option String) (now : Nat) : Except PyErr (String × Db) :=
  match io.dirRes with
  | .error e => .error e
  | .ok _task_directory =>
    let _text_preview := text.take 200
    let text_file_path := save_text_to_file io.saveRes
    match io.insertRes with
    | .error e => .error e
    | .ok _ =>
      if (lookupTask db task_id).isSome then
        .error .integrityError
      else
        .ok (task_id, db ++ [newTaskRow "long_text" task_id voice text_file_path callback_url now])

/-- The WHERE clause of `DatabaseManager.get_next_task`: `status = 'pending'`
plus the optional `task_type = %s` filter. -/
def pendingMatches (taskType : Option String) (r : TaskRow) : Bool :=
  r.status == "pending" &&
    match taskType with
    | some t => r.task_type == t
    | none => true

/-- The SELECT statement of `get_next_task`:
`SELECT * ... WHERE status = 'pending' [AND task_type = %s] ORDER BY created_at
ASC LIMIT 1 FOR UPDATE` — the earliest-created pending row.  The connection
pool is opened with `autocommit=True` and no explicit transaction, so this
statement is its own transaction: the FOR UPDATE row lock is released the
moment the statement completes, *before* the subsequent UPDATE runs. -/
def selectPending (taskType : Option String) (db : Db) : Option TaskRow :=
  (db.filter (pendingMatches taskType)).foldl
    (fun acc r =>
      match acc with
      | none => some r
      | some b => if r.created_at < b.created_at then some r else some b)
    none

/-- The UPDATE statement of `get_next_task`:
`UPDATE tts_tasks SET status = 'processing', started_at = NOW() WHERE task_id =
%s` — again a transaction of its own under autocommit. -/
def claimUpdate (db : Db) (tid : String) (now : Nat) : Db :=
  db.map (fun r =>
    if r.task_id == tid then { r with status := "processing", started_at := some now }
    else r)

/-- `DatabaseManager.get_next_task(task_type)` as executed by one worker with
no interleaving: the SELECT, then, if a row was found, the UPDATE; the row
returned to the caller is the one fetched by the SELECT (its dict still shows
`status = 'pending'`), regardless of what the UPDATE reports. -/
def get_next_task (taskType : Option String) (db : Db) (now : Nat) :
    Option TaskRow × Db :=
  match selectPending taskType db with
  | some r => (some r, claimUpdate db r.task_id now)
  | none => (none, db)

/-! ## File Store: `src/server/utils/file_manager.py`

Paths are lists of components; the filesystem is the set of existing entries
(directories and plain files).  Both the server configuration and the cleanup
script configuration read the same TEXT_STORAGE_DIR value, so a single root
string stands for it. -/

/-- One filesystem entry: an absolute path and whether it is a directory. -/
structure FsEntry where
  path : List String
  isDir : Bool
deriving DecidableEq, Repr

/-- The filesystem restricted to the storage tree. -/
abbrev Fs := List FsEntry

/-- `Path.exists()`. -/
def fsHas (fs : Fs) (p : List String) : Bool :=
  (fs.find? (fun e => e.path == p)).isSome

/-- `Path.mkdir(exist_ok=True)`. -/
def mkdirP (fs : Fs) (p : List String) : Fs :=
  if fsHas fs p then fs else fs ++ [{ path := p, isDir := true }]

/-- Writing a plain file (creating the entry when absent). -/
def writeFileEntry (fs : Fs) (p : List String) : Fs :=
  if fsHas fs p then fs else fs ++ [{ path := p, isDir := false }]

/-- `TaskFileManager.get_task_directory(task_id)`: the per-task directory is
`storage_root / tasks / task_id` — the manager nests every task directory
under the extra `tasks` subdirectory it creates at startup. -/
def get_task_directory (root tid : String) : List String :=
  [root, "tasks", tid]

/-- `TaskFileManager.get_text_file_path(task_id)` = task dir + `{task_id}.txt`. -/
def get_text_file_path (root tid : String) : List String :=
  get_task_directory root tid ++ [tid ++ ".txt"]

/-- `TaskFileManager.get_audio_file_path(task_id)` = task dir + `{task_id}.wav`. -/
def get_audio_file_path (root tid : String) : List String :=
  get_task_directory root tid ++ [tid ++ ".wav"]

/-- `TaskFileManager.get_srt_file_path(task_id)` = task dir + `{task_id}.srt`. -/
def get_srt_file_path (root tid : String) : List String :=
  get_task_directory root tid ++ [tid ++ ".srt"]

/-- `TaskFileManager.create_task_directory(task_id)` (the startup `mkdir`s of
the root and the `tasks` subdirectory are folded in). -/
def create_task_directory (fs : Fs) (root tid : String) : Fs :=
  mkdirP (mkdirP (mkdirP fs [root]) [root, "tasks"]) (get_task_directory root tid)

/-- `TaskFileManager.save_text_file(task_id, text)`: ensure the directory, then
write `{task_id}.txt` (file contents are not tracked, only existence). -/
def save_text_file (fs : Fs) (root tid : String) : Fs :=
  writeFileEntry (create_task_directory fs root tid) (get_text_file_path root tid)

/-- `TaskFileManager.save_audio_file(task_id, data)`. -/
def save_audio_file (fs : Fs) (root tid : String) : Fs :=
  writeFileEntry (create_task_directory fs root tid) (get_audio_file_path root tid)

/-- `TaskFileManager.save_srt_file(task_id, content)`. -/
def save_srt_file (fs : Fs) (root tid : String) : Fs :=
  writeFileEntry (create_task_directory fs root tid) (get_srt_file_path root tid)

/-! ## External cleanup job: `src/scripts/cache_cleanup.py` -/

/-- Seconds in a day, for `timedelta(days=n)`. -/
def secondsPerDay : Nat := 86400

/-- `CacheCleanupService.get_expired_tasks`: the task ids of the rows matching
`status = 'completed' AND completed_at < NOW() - INTERVAL expire_days DAY`
(rows whose `completed_at` is NULL are excluded by the SQL comparison; the
ORDER BY created_at of the query is not modelled — the claims only use
membership). -/
def get_expired_tasks (db : Db) (now expireDays : Nat) : List String :=
  (db.filter (fun r =>
      r.status == "completed" &&
        match r.completed_at with
        | some t => decide (t < now - expireDays * secondsPerDay)
        | none => false)).map (fun r => r.task_id)

/-- The directory `CacheCleanupService.cleanup_task_files` operates on:
`self.storage_dir / task_id`, i.e. `TEXT_STORAGE_DIR/<task_id>` — it does
**not** descend into the `tasks` subdirectory where `TaskFileManager` actually
keeps the per-task directories. -/
def cleanupTarget (root tid : String) : List String :=
  [root, tid]

/-- `CacheCleanupService.cleanup_task_files(task_id)`: if the target does not
exist, log and return True; if it is a directory, call `shutil.rmtree` — but
`cache_cleanup.py` never imports `shutil`, so the call raises `NameError`,
which the blanket `except Exception` turns into a logged `return False` with
nothing deleted; a plain file at the target is removed with `Path.unlink`. -/
def cleanup_task_files (fs : Fs) (root tid : String) : Bool × Fs :=
  match fs.find? (fun e => e.path == cleanupTarget root tid) with
  | none => (true, fs)
  | some e =>
    if e.isDir then (false, fs)
    else (true, fs.filter (fun x => x.path != e.path))

/-! ## Worker processing: `src/server/task_worker.py` -/

/-- Outcomes of the collaborators invoked by `TTSTaskWorker.process_task`: the
synthesis engine call (returns sample rate and sample count, or raises), the
two file writes (re-raise on failure), and the two TOS uploads (each returns
the stored object URL or raises). -/
structure EngineIO where
  synth : Except PyErr (Nat × Nat)
  saveAudioRes : Except PyErr Unit
  saveSrtRes : Except PyErr Unit
  uploadAudioRes : Except PyErr String
  uploadSrtRes : Except PyErr String
deriving Repr

/-- Body of the `try` block of `TTSTaskWorker.process_task`: synthesize, save
the audio file, generate and save the SRT file, attempt the uploads inside the
inner `try` (an upload failure only leaves the corresponding URLs None), then
`update_task_files` and `update_task_status('completed', ...)`.  Float
durations and the SRT text are not modelled; the inner upload `try` assigns
`audio_url` before the subtitle upload, so a subtitle-upload failure keeps the
audio URL. -/
def processAttempt (io : EngineIO) (root : String) (td : TaskData) (db : Db)
    (now : Nat) : Except PyErr Db :=
  match io.synth with
  | .error e => .error e
  | .ok (_sr, _nsamples) =>
    match io.saveAudioRes with
    | .error e => .error e
    | .ok _ =>
      let audio_file_path := String.intercalate "/" (get_audio_file_path root td.task_id)
      match io.saveSrtRes with
      | .error e => .error e
      | .ok _ =>
        let srt_file_path := String.intercalate "/" (get_srt_file_path root td.task_id)
        let urls : Option String × Option String :=
          match io.uploadAudioRes with
          | .error _ => (none, none)
          | .ok au =>
            match io.uploadSrtRes with
            | .error _ => (some au, none)
            | .ok su => (some au, some su)
        let step1 := update_task_files db td.task_id (some audio_file_path) urls.1
          (some srt_file_path) urls.2
        let step2 := update_task_status step1.2 td.task_id "completed" none urls.1 none
          urls.2 none now
        .ok step2.2

/-- `TTSTaskWorker.process_task(task_data)`: the `try` body above; on any
exception the `except` block runs `update_task_status(task_id, 'failed',
error_message=str(e))`, sends the failure callback (callback delivery is
wrapped in its own blanket `try` inside `send_callback` and never affects
state), and returns False — the exception is not re-raised. -/
def process_task (io : EngineIO) (root : String) (td : TaskData) (db : Db)
    (now : Nat) : Bool × Db :=
  match processAttempt io root td db now with
  | .ok db2 => (true, db2)
  | .error e =>
    let res := update_task_status db td.task_id "failed" none none none none
      (some (PyErr.msg e)) now
    (false, res.2)

/-- `DatabaseManager.create_online_task(text, voice, ..., callback_url)`: the
same flow as `create_long_text_task` with `task_type = 'online'`. -/
def create_online_task (io : CreateIO) (db : Db) (task_id : String) (text voice : String)
    (callback_url : Option String) (now : Nat) : Except PyErr (String × Db) :=
  match io.dirRes with
  | .error e => .error e
  | .ok _task_directory =>
    let _text_preview := text.take 200
    let text_file_path := save_text_to_file io.saveRes
    match io.insertRes with
    | .error e => .error e
    | .ok _ =>
      if (lookupTask db task_id).isSome then
        .error .integrityError
      else
        .ok (task_id, db ++ [newTaskRow "online" task_id voice text_file_path callback_url now])

/-- `submit_long_text_task` in `src/server/api_server.py`: create the task row
(an exception raised by creation escapes to the endpoint handler, which
answers HTTP 500 and pushes nothing), then build the queue payload and push it
— the endpoint calls `push_task_to_queue(queue_name, task_data)` with the
priority argument left at its default 0, the requested priority riding only
inside the payload and in the `high_priority`/`long_text` queue-name choice.
The payload text is re-read through `get_task_text`; content equality with the
submitted text is not needed by any claim, so the submitted text stands in. -/
def submit_long_text_task (cio : CreateIO) (db : Db) (store : Qstore)
    (task_id : String) (text voice : String) (cb : Option String) (priority : Int)
    (now : Nat) : Except PyErr (String × Db × Qstore) :=
  match create_long_text_task cio db task_id text voice cb now with
  | .error e => .error e
  | .ok (tid, db2) =>
    let task_data : TaskData :=
      { task_id := tid, text := text, voice := voice, priority := priority,
        callback_url := cb }
    let queue_name := if priority > 0 then "high_priority" else "long_text"
    let res := push_task_to_queue store queue_name task_data 0 now
    .ok (tid, db2, res.2)

/-! ## The Task Store mutations the system performs

Every statement in `src/server` that writes the `tts_tasks` table is one of:
the two INSERTs (`create_long_text_task`, `create_online_task`), the claim
SELECT+UPDATE of `get_next_task`, `update_task_status` invoked with status
`completed` or `failed` (the only statuses appearing at any call site:
`api_server.online_tts` and `task_worker.process_task`), and
`update_task_files`.  `cleanup_old_tasks` (row deletion) has no caller in
`src/server`.  The inductive below closes the system over exactly these
mutations; a trace is a list of them.

Because the pool is autocommit, `get_next_task` is genuinely two statements.
`claim` is its serialized schedule (SELECT immediately followed by the UPDATE,
nothing in between); `rawClaimUpdate` is the claiming UPDATE statement on its
own, as issued by a worker whose SELECT ran earlier in an interleaved schedule
(cf. `raceTwoWorkers`) — by the time it commits, the selected row may no
longer be pending.  The write-once discipline on `started_at` holds only for
traces free of `rawClaimUpdate`; a trace containing one can re-stamp an
already-processing row. -/

inductive SysOp where
  | createLong (io : CreateIO) (task_id : String) (text voice : String)
      (cb : Option String) (now : Nat)
  | createOnline (io : CreateIO) (task_id : String) (text voice : String)
      (cb : Option String) (now : Nat)
  | claim (taskType : Option String) (now : Nat)
  | rawClaimUpdate (tid : String) (now : Nat)
  | complete (tid : String) (afp au sfp su : Option String) (now : Nat)
  | fail (tid : String) (em : String) (now : Nat)
  | updFiles (tid : String) (afp au sfp su : Option String)

/-- Whether an operation is part of a serialized schedule: true for
everything except the lone raced claim UPDATE. -/
def SysOp.serial : SysOp → Bool
  | .rawClaimUpdate _ _ => false
  | _ => true

/-- Effect of one Task Store mutation on the table (a creation whose INSERT or
directory creation raised leaves the table untouched). -/
def SysOp.step (op : SysOp) (db : Db) : Db :=
  match op with
  | .createLong io tid text voice cb now =>
    match create_long_text_task io db tid text voice cb now with
    | .ok (_, db2) => db2
    | .error _ => db
  | .createOnline io tid text voice cb now =>
    match create_online_task io db tid text voice cb now with
    | .ok (_, db2) => db2
    | .error _ => db
  | .claim tt now => (get_next_task tt db now).2
  | .rawClaimUpdate tid now => claimUpdate db tid now
  | .complete tid afp au sfp su now =>
    (update_task_status db tid "completed" afp au sfp su none now).2
  | .fail tid em now =>
    (update_task_status db tid "failed" none none none none (some em) now).2
  | .updFiles tid afp au sfp su =>
    (update_task_files db tid afp au sfp su).2

/-- Run a trace of Task Store mutations. -/
def runOps (ops : List SysOp) (db : Db) : Db :=
  ops.foldl (fun d op => op.step d) db

/-! ## Crash recovery (spec-modelled)

No file under `src/` implements `list_orphaned_processing` or a recovery
sweep: the only self-healing mechanism the spec describes (§4.1, §4.3) has no
counterpart in the sources.  The two definitions below model it from the
spec's words so the recovery claim can be settled; the re-push step uses the
repository's own `push_task_to_queue`. -/

/-- Modelled from the spec: `list_orphaned_processing(older_than_threshold) ->
[task_id]` — "tasks stuck in `processing` past a liveness threshold (worker
crashed mid-task)", i.e. rows with status `processing` whose `started_at` is
older than the threshold.  Missing from `src/`. -/
def list_orphaned_processing (db : Db) (now threshold : Nat) : List String :=
  (db.filter (fun r =>
      r.status == "processing" &&
        match r.started_at with
        | some t => decide (t + threshold < now)
        | none => false)).map (fun r => r.task_id)

/-- The queue payload a re-push would carry for a recovered row. -/
def requeueData (r : TaskRow) : TaskData :=
  { task_id := r.task_id, voice := r.voice, callback_url := r.callback_url }

/-- Modelled from the spec: the §4.3 recovery sweep — orphaned `processing`
tasks "are force-transitioned back to `pending` and re-pushed to the Priority
Queue".  The force-transition is modelled as the direct status write the spec
demands; the re-push calls the repository's `push_task_to_queue` on the
long-text queue.  Missing from `src/`. -/
def recovery_sweep (db : Db) (store : Qstore) (now threshold : Nat) :
    Db × Qstore :=
  let orphans := list_orphaned_processing db now threshold
  let db2 := db.map (fun r =>
    if orphans.contains r.task_id then { r with status := "pending" } else r)
  let store2 := orphans.foldl
    (fun s tid =>
      (push_task_to_queue s "long_text"
        (match lookupTask db tid with
         | some r => requeueData r
         | none => { task_id := tid }) 0 now).2)
    store
  (db2, store2)

/-! ## Two workers racing on `get_next_task`

The connection pool is created with `autocommit=True` and `get_next_task`
opens no explicit transaction, so its SELECT ... FOR UPDATE and its UPDATE
each commit separately and the row lock of the SELECT is already released
when the UPDATE runs.  The schedule in which both workers execute their
SELECT before either executes its UPDATE is therefore a legal interleaving of
two concurrent `get_next_task` calls; each call returns the row its own
SELECT fetched, whatever the UPDATEs did. -/

/-- The interleaving select-A, select-B, update-A, update-B of two concurrent
`get_next_task(None)` calls; the first two components are what the two calls
return, the third is the final table. -/
def raceTwoWorkers (db : Db) (tA tB : Nat) :
    Option TaskRow × Option TaskRow × Db :=
  let a := selectPending none db
  let b := selectPending none db
  let db1 := match a with
    | some r => claimUpdate db r.task_id tA
    | none => db
  let db2 := match b with
    | some r => claimUpdate db1 r.task_id tB
    | none => db1
  (a, b, db2)

/-! ## Invariants used for the started_at discipline -/

/-- The primary-key column of the table. -/
def dbKeys (db : Db) : List String :=
  db.map (fun r => r.task_id)

/-- Rows still pending have never been claimed: their `started_at` is NULL. -/
def PendingFresh (db : Db) : Prop :=
  ∀ r ∈ db, r.status = "pending" → r.started_at = none

/-- The table invariant maintained by every Task Store mutation: `task_id` is
a primary key and pending rows carry no `started_at`. -/
def DbInv (db : Db) : Prop :=
  (dbKeys db).Nodup ∧ PendingFresh db

/-- The `started_at` column of the row with the given id, when the row
exists. -/
def lookupStarted (db : Db) (tid : String) : Option (Option Nat) :=
  (lookupTask db tid).map (fun r => r.started_at)

/-- A `started_at` value, once written, survives into the second table: the
column is write-once along the mutation in question. -/
def StartedStable (db db2 : Db) : Prop :=
  ∀ tid t, lookupStarted db tid = some (some t) → lookupStarted db2 tid = some (some t)

/-! ## Concrete fixtures for counterexamples and witnesses -/

/-- A freshly created pending task. -/
def pRow0 : TaskRow :=
  { task_id := "t1", created_at := 3 }

/-- A second pending task, created later. -/
def pRow1 : TaskRow :=
  { task_id := "t2", created_at := 5 }

/-- A task that has already completed. -/
def doneRow : TaskRow :=
  { task_id := "t1", status := "completed", started_at := some 10,
    completed_at := some 50 }

/-- A task a worker is processing. -/
def procRow : TaskRow :=
  { task_id := "t1", status := "processing", started_at := some 4 }

/-- A stuck `processing` task whose worker died right after claiming it. -/
def orphanRow : TaskRow :=
  { task_id := "t1", status := "processing", started_at := some 0 }

/-- The queue payload of task `t1`. -/
def tdT1 : TaskData :=
  { task_id := "t1", text := "hello", voice := "v1" }

/-- Payloads for the priority-ordering scenario: priorities [5, 1, 5, 0]. -/
def tdA : TaskData := { task_id := "a", priority := 5 }

/-- Second push of the priority scenario (priority 1). -/
def tdB : TaskData := { task_id := "b", priority := 1 }

/-- Third push of the priority scenario (priority 5 again). -/
def tdC : TaskData := { task_id := "c", priority := 5 }

/-- Fourth push of the priority scenario (priority 0). -/
def tdD : TaskData := { task_id := "d", priority := 0 }

/-- The queue store after pushing the four tasks with priorities [5, 1, 5, 0]
at strictly increasing timestamps. -/
def afterFourPushes : Qstore :=
  (push_task_to_queue
    (push_task_to_queue
      (push_task_to_queue
        (push_task_to_queue [] "long_text" tdA 5 10).2
        "long_text" tdB 1 11).2
      "long_text" tdC 5 12).2
    "long_text" tdD 0 13).2

/-- The four successive pop results after the four pushes. -/
def fourPops : List (Option String) :=
  let p1 := pop_task_from_queue afterFourPushes "long_text"
  let p2 := pop_task_from_queue p1.2 "long_text"
  let p3 := pop_task_from_queue p2.2 "long_text"
  let p4 := pop_task_from_queue p3.2 "long_text"
  [p1.1, p2.1, p3.1, p4.1]

/-- Creation collaborators that all succeed. -/
def cioOk : CreateIO :=
  { dirRes := .ok "storage/tasks/t1", saveRes := .ok "storage/tasks/t1/t1.txt",
    insertRes := .ok () }

/-- Creation collaborators where only the File Store text write fails. -/
def cioBadSave : CreateIO :=
  { dirRes := .ok "storage/tasks/t1", saveRes := .error (.storageError "disk full"),
    insertRes := .ok () }

/-- Creation collaborators where the Task Store INSERT fails. -/
def cioBadInsert : CreateIO :=
  { dirRes := .ok "storage/tasks/t1", saveRes := .ok "storage/tasks/t1/t1.txt",
    insertRes := .error (.connectionError "mysql gone away") }

/-- Worker collaborators where the synthesis engine call fails. -/
def eioBadSynth : EngineIO :=
  { synth := .error (.synthesisError "engine crash"), saveAudioRes := .ok (),
    saveSrtRes := .ok (), uploadAudioRes := .ok "https://bucket/audio",
    uploadSrtRes := .ok "https://bucket/srt" }

/-- The File Store contents after the text of task `t1` is saved under the
root `storage`. -/
def fsLayoutT1 : Fs :=
  save_text_file [] "storage" "t1"

/-! ## Shared lemmas

On the code as written the three queue operations are unconditional no-ops:
the `NameError` on the bare `config` name fires before any Redis command is
issued, and the blanket `except` of each method returns its fallback value. -/

theorem push_task_to_queue_eq (store : Qstore) (task_type : String)
    (task_data : TaskData) (priority : Int) (now : Nat) :
    push_task_to_queue store task_type task_data priority now = (false, store) := rfl

theorem pop_task_from_queue_eq (store : Qstore) (task_type : String) :
    pop_task_from_queue store task_type = (none, store) := rfl

theorem get_queue_length_eq (store : Qstore) (task_type : String) :
    get_queue_length store task_type = 0 := rfl

theorem foldl_push_fixed (l : List String) (store : Qstore) (g : String → TaskData)
    (now : Nat) :
    l.foldl (fun s tid => (push_task_to_queue s "long_text" (g tid) 0 now).2) store
      = store := by
  induction l generalizing store with
  | nil => rfl
  | cons x xs ih => rw [List.foldl_cons, push_task_to_queue_eq]; exact ih store

theorem lookupTask_map_of_keyfix (f : TaskRow → TaskRow)
    (hf : ∀ r, (f r).task_id = r.task_id) (db : Db) (tid : String) :
    lookupTask (db.map f) tid = (lookupTask db tid).map f := by
  unfold lookupTask
  rw [List.find?_map]
  have hp : ((fun r : TaskRow => r.task_id == tid) ∘ f)
      = (fun r : TaskRow => r.task_id == tid) := by
    funext r
    simp only [Function.comp_apply, hf]
  rw [hp]

theorem lookupTask_append_left {db : Db} {tid : String} {r : TaskRow}
    (h : lookupTask db tid = some r) (l : Db) :
    lookupTask (db ++ l) tid = some r := by
  unfold lookupTask at *
  rw [List.find?_append, h]
  rfl

theorem lookupTask_eq_none_iff {db : Db} {tid : String} :
    lookupTask db tid = none ↔ tid ∉ dbKeys db := by
  unfold lookupTask dbKeys
  rw [List.find?_eq_none]
  constructor
  · intro h hmem
    obtain ⟨r, hr, hrtid⟩ := List.mem_map.mp hmem
    exact h r hr (by simp [hrtid])
  · intro h r hr hp
    exact h (List.mem_map.mpr ⟨r, hr, by simpa using hp⟩)

theorem lookupTask_of_mem_nodup {db : Db} {r : TaskRow}
    (hnd : (dbKeys db).Nodup) (hr : r ∈ db) :
    lookupTask db r.task_id = some r := by
  induction db with
  | nil => cases hr
  | cons x xs ih =>
    have hnd2 : x.task_id ∉ dbKeys xs ∧ (dbKeys xs).Nodup := by
      simpa [dbKeys, List.nodup_cons] using hnd
    rcases List.mem_cons.mp hr with rfl | hmem
    · exact List.find?_cons_of_pos _ (by simp)
    · have hx : ¬(x.task_id == r.task_id) = true := by
        simp only [beq_iff_eq]
        intro he
        exact hnd2.1 (he ▸ List.mem_map.mpr ⟨r, hmem, rfl⟩)
      exact (List.find?_cons_of_neg xs hx).trans (ih hnd2.2 hmem)

theorem applyStatusUpdate_task_id (r : TaskRow) (st : String)
    (afp au sfp su em : Option String) (now : Nat) :
    (applyStatusUpdate r st afp au sfp su em now).task_id = r.task_id := rfl

theorem update_task_status_snd (db : Db) (tid st : String)
    (afp au sfp su em : Option String) (now : Nat) :
    (update_task_status db tid st afp au sfp su em now).2 =
      statusMapped db tid st afp au sfp su em now := by
  unfold update_task_status
  split <;> simp_all

theorem lookupTask_update_status {db : Db} {tid : String} {r : TaskRow}
    (h : lookupTask db tid = some r) (st : String)
    (afp au sfp su em : Option String) (now : Nat) :
    lookupTask (update_task_status db tid st afp au sfp su em now).2 tid =
      some (applyStatusUpdate r st afp au sfp su em now) := by
  have h2 : List.find? (fun x : TaskRow => x.task_id == tid) db = some r := h
  have hp0 := List.find?_some h2
  have hp : (r.task_id == tid) = true := by simpa using hp0
  rw [update_task_status_snd]
  unfold statusMapped
  rw [lookupTask_map_of_keyfix _ (fun x => by split <;> rfl), h]
  simp only [Option.map_some']
  rw [if_pos hp]

theorem lookupTask_update_status_none {db : Db} {tid : String}
    (h : lookupTask db tid = none) (st : String)
    (afp au sfp su em : Option String) (now : Nat) :
    update_task_status db tid st afp au sfp su em now = (false, db) := by
  have hall : ∀ x ∈ db, ¬(x.task_id == tid) = true :=
    List.find?_eq_none.mp (by simpa [lookupTask] using h)
  have hmap : statusMapped db tid st afp au sfp su em now = db := by
    unfold statusMapped
    rw [show db.map (fun r =>
        if r.task_id == tid then applyStatusUpdate r st afp au sfp su em now else r)
        = db.map id from List.map_congr_left (fun x hx => by
          rw [if_neg (hall x hx)]; rfl), List.map_id]
  unfold update_task_status
  rw [hmap, if_pos rfl]

theorem map_started_at_update_status (db : Db) (tid st : String)
    (afp au sfp su em : Option String) (now : Nat) :
    ((update_task_status db tid st afp au sfp su em now).2).map (fun r => r.started_at)
      = db.map (fun r => r.started_at) := by
  rw [update_task_status_snd]
  unfold statusMapped
  rw [List.map_map]
  exact List.map_congr_left (fun r _ => by simp only [Function.comp_apply]; split <;> rfl)

theorem update_task_files_snd_map (db : Db) (tid : String)
    (afp au sfp su : Option String) :
    ((update_task_files db tid afp au sfp su).2).map
        (fun r => (r.task_id, r.status, r.started_at))
      = db.map (fun r => (r.task_id, r.status, r.started_at)) := by
  have hmf : (filesMapped db tid afp au sfp su).map
      (fun r => (r.task_id, r.status, r.started_at))
      = db.map (fun r => (r.task_id, r.status, r.started_at)) := by
    unfold filesMapped
    rw [List.map_map]
    exact List.map_congr_left (fun r _ => by
      simp only [Function.comp_apply]; split <;> rfl)
  unfold update_task_files
  split
  · rfl
  · split
    · rfl
    · exact hmf

theorem pickEarliest_mem :
    ∀ (l : List TaskRow) (acc : Option TaskRow) (r : TaskRow),
      l.foldl (fun acc x =>
        match acc with
        | none => some x
        | some b => if x.created_at < b.created_at then some x else some b) acc = some r →
      r ∈ l ∨ acc = some r := by
  intro l
  induction l with
  | nil => intro acc r h; right; exact h
  | cons x xs ih =>
    intro acc r h
    rw [List.foldl_cons] at h
    rcases ih _ r h with h1 | h2
    · exact Or.inl (List.mem_cons_of_mem _ h1)
    · cases acc with
      | none =>
        left
        cases h2
        exact List.mem_cons_self _ _
      | some b =>
        dsimp only at h2
        by_cases hc : x.created_at < b.created_at
        · rw [if_pos hc] at h2
          left
          cases h2
          exact List.mem_cons_self _ _
        · rw [if_neg hc] at h2
          exact Or.inr h2

theorem selectPending_eq_some {tt : Option String} {db : Db} {r : TaskRow}
    (h : selectPending tt db = some r) :
    r ∈ db ∧ pendingMatches tt r = true := by
  unfold selectPending at h
  rcases pickEarliest_mem _ _ _ h with h1 | h2
  · exact ⟨(List.mem_filter.mp h1).1, (List.mem_filter.mp h1).2⟩
  · cases h2

theorem pendingMatches_status {tt : Option String} {r : TaskRow}
    (h : pendingMatches tt r = true) : r.status = "pending" := by
  unfold pendingMatches at h
  have := (Bool.and_eq_true _ _).mp h
  exact beq_iff_eq.mp this.1

theorem pickEarliest_isSome :
    ∀ (l : List TaskRow) (acc : Option TaskRow), acc.isSome = true →
      (l.foldl (fun acc x =>
        match acc with
        | none => some x
        | some b => if x.created_at < b.created_at then some x else some b) acc).isSome
        = true := by
  intro l
  induction l with
  | nil => intro acc h; exact h
  | cons x xs ih =>
    intro acc h
    rw [List.foldl_cons]
    apply ih
    cases acc with
    | none => rfl
    | some b =>
      dsimp only
      split <;> rfl

theorem selectPending_isSome_of_mem {tt : Option String} {db : Db} {r : TaskRow}
    (hr : r ∈ db) (hp : pendingMatches tt r = true) :
    (selectPending tt db).isSome = true := by
  have hmem : r ∈ db.filter (pendingMatches tt) := List.mem_filter.mpr ⟨hr, hp⟩
  unfold selectPending
  cases hfl : db.filter (pendingMatches tt) with
  | nil =>
    rw [hfl] at hmem
    cases hmem
  | cons y ys =>
    rw [List.foldl_cons]
    exact pickEarliest_isSome ys (some y) rfl

theorem claimUpdate_keys (db : Db) (tid : String) (now : Nat) :
    dbKeys (claimUpdate db tid now) = dbKeys db := by
  unfold dbKeys claimUpdate
  rw [List.map_map]
  exact List.map_congr_left (fun r _ => by
    simp only [Function.comp_apply]; split <;> rfl)

theorem mem_claimUpdate_same_tid {db : Db} {tid : String} {now : Nat} {x : TaskRow}
    (hx : x ∈ claimUpdate db tid now) (hid : x.task_id = tid) :
    x.status = "processing" ∧ x.started_at = some now := by
  unfold claimUpdate at hx
  obtain ⟨y, hy, hyx⟩ := List.mem_map.mp hx
  by_cases hc : (y.task_id == tid) = true
  · rw [if_pos hc] at hyx
    rw [← hyx]
    exact ⟨rfl, rfl⟩
  · rw [if_neg hc] at hyx
    rw [hyx] at hc
    exact absurd (beq_iff_eq.mpr hid) hc

theorem lookupTask_some_key {db : Db} {tid : String} {y : TaskRow}
    (h : lookupTask db tid = some y) : y.task_id = tid := by
  have h2 : List.find? (fun x : TaskRow => x.task_id == tid) db = some y := h
  have h3 := List.find?_some h2
  exact beq_iff_eq.mp (by simpa using h3)

theorem dbKeys_map_of_keyfix (f : TaskRow → TaskRow)
    (hk : ∀ r, (f r).task_id = r.task_id) (db : Db) :
    dbKeys (db.map f) = dbKeys db := by
  unfold dbKeys
  rw [List.map_map]
  exact List.map_congr_left (fun r _ => by simp only [Function.comp_apply, hk])

theorem startedStable_of_pointwise (db : Db) (f : TaskRow → TaskRow)
    (hk : ∀ r, (f r).task_id = r.task_id)
    (hs : ∀ r, (f r).started_at = r.started_at) :
    StartedStable db (db.map f) := by
  intro tid t hst
  unfold lookupStarted at *
  rw [lookupTask_map_of_keyfix f hk]
  cases hl : lookupTask db tid with
  | none => rw [hl] at hst; cases hst
  | some y =>
    rw [hl] at hst
    simp only [Option.map_some'] at hst ⊢
    rw [hs]
    exact hst

theorem create_long_text_task_cases (io : CreateIO) (db : Db) (tid text voice : String)
    (cb : Option String) (now : Nat) :
    (∃ e, create_long_text_task io db tid text voice cb now = .error e) ∨
    (lookupTask db tid = none ∧
      create_long_text_task io db tid text voice cb now =
        .ok (tid, db ++ [newTaskRow "long_text" tid voice
          (save_text_to_file io.saveRes) cb now])) := by
  unfold create_long_text_task
  cases hdr : io.dirRes with
  | error e => exact Or.inl ⟨e, rfl⟩
  | ok d =>
    cases hins : io.insertRes with
    | error e => exact Or.inl ⟨e, rfl⟩
    | ok u =>
      by_cases hl : (lookupTask db tid).isSome
      · exact Or.inl ⟨.integrityError, by simp [hl]⟩
      · exact Or.inr ⟨Option.not_isSome_iff_eq_none.mp hl, by simp [hl]⟩

theorem create_online_task_cases (io : CreateIO) (db : Db) (tid text voice : String)
    (cb : Option String) (now : Nat) :
    (∃ e, create_online_task io db tid text voice cb now = .error e) ∨
    (lookupTask db tid = none ∧
      create_online_task io db tid text voice cb now =
        .ok (tid, db ++ [newTaskRow "online" tid voice
          (save_text_to_file io.saveRes) cb now])) := by
  unfold create_online_task
  cases hdr : io.dirRes with
  | error e => exact Or.inl ⟨e, rfl⟩
  | ok d =>
    cases hins : io.insertRes with
    | error e => exact Or.inl ⟨e, rfl⟩
    | ok u =>
      by_cases hl : (lookupTask db tid).isSome
      · exact Or.inl ⟨.integrityError, by simp [hl]⟩
      · exact Or.inr ⟨Option.not_isSome_iff_eq_none.mp hl, by simp [hl]⟩

theorem append_fresh_preserves (db : Db) (row : TaskRow)
    (hfresh : lookupTask db row.task_id = none)
    (hpend : row.status = "pending" → row.started_at = none)
    (h : DbInv db) :
    DbInv (db ++ [row]) ∧ StartedStable db (db ++ [row]) := by
  refine ⟨⟨?_, ?_⟩, ?_⟩
  · unfold dbKeys
    rw [List.map_append]
    refine List.Nodup.append h.1 (List.nodup_singleton _) ?_
    intro a ha hb
    rw [List.mem_map] at hb
    obtain ⟨y, hy, hyid⟩ := hb
    have : y = row := by
      cases List.mem_singleton.mp hy
      rfl
    rw [this] at hyid
    exact (lookupTask_eq_none_iff.mp hfresh) (hyid ▸ ha)
  · intro r hr hrp
    rcases List.mem_append.mp hr with hmem | hmem
    · exact h.2 r hmem hrp
    · cases List.mem_singleton.mp hmem
      exact hpend hrp
  · intro tid t hst
    unfold lookupStarted at *
    cases hl : lookupTask db tid with
    | none => rw [hl] at hst; cases hst
    | some y =>
      rw [lookupTask_append_left hl]
      rw [hl] at hst
      exact hst

theorem claim_preserves (tt : Option String) (now : Nat) (db : Db) (h : DbInv db) :
    DbInv (get_next_task tt db now).2 ∧ StartedStable db (get_next_task tt db now).2 := by
  unfold get_next_task
  cases hsel : selectPending tt db with
  | none => exact ⟨h, fun tid t hst => hst⟩
  | some r =>
    dsimp only
    obtain ⟨hrmem, hrpm⟩ := selectPending_eq_some hsel
    have hrpend := pendingMatches_status hrpm
    have hrstart : r.started_at = none := h.2 r hrmem hrpend
    constructor
    · constructor
      · rw [claimUpdate_keys]
        exact h.1
      · intro x hx hxp
        unfold claimUpdate at hx
        obtain ⟨y, hy, hyx⟩ := List.mem_map.mp hx
        by_cases hc : (y.task_id == r.task_id) = true
        · rw [if_pos hc] at hyx
          rw [← hyx] at hxp
          simp at hxp
        · rw [if_neg hc] at hyx
          exact h.2 y hy (hyx ▸ hxp) ▸ (hyx ▸ rfl)
    · intro tid t hst
      have hne : tid ≠ r.task_id := by
        intro he
        rw [he] at hst
        unfold lookupStarted at hst
        rw [lookupTask_of_mem_nodup h.1 hrmem] at hst
        simp [hrstart] at hst
      unfold lookupStarted at hst ⊢
      cases hl : lookupTask db tid with
      | none => rw [hl] at hst; cases hst
      | some y =>
        rw [hl] at hst
        have hyid : y.task_id = tid := lookupTask_some_key hl
        unfold claimUpdate
        rw [lookupTask_map_of_keyfix _ (fun x => by split <;> rfl), hl]
        have hcond : ¬(y.task_id == r.task_id) = true := by
          simp only [beq_iff_eq, hyid]
          exact hne
        simp only [Option.map_some']
        rw [if_neg hcond]
        exact hst

theorem updStatus_preserves (db : Db) (tid st : String)
    (afp au sfp su em : Option String) (now : Nat) (hst : st ≠ "pending")
    (h : DbInv db) :
    DbInv (update_task_status db tid st afp au sfp su em now).2 ∧
      StartedStable db (update_task_status db tid st afp au sfp su em now).2 := by
  rw [update_task_status_snd]
  unfold statusMapped
  constructor
  · constructor
    · rw [dbKeys_map_of_keyfix _ (fun x => by split <;> rfl)]
      exact h.1
    · intro x hx hxp
      obtain ⟨y, hy, hyx⟩ := List.mem_map.mp hx
      by_cases hc : (y.task_id == tid) = true
      · rw [if_pos hc] at hyx
        rw [← hyx] at hxp
        exact absurd hxp hst
      · rw [if_neg hc] at hyx
        exact h.2 y hy (hyx ▸ hxp) ▸ (hyx ▸ rfl)
  · exact startedStable_of_pointwise db _ (fun x => by split <;> rfl)
      (fun x => by split <;> rfl)

theorem updFiles_preserves (db : Db) (tid : String)
    (afp au sfp su : Option String) (h : DbInv db) :
    DbInv (update_task_files db tid afp au sfp su).2 ∧
      StartedStable db (update_task_files db tid afp au sfp su).2 := by
  unfold update_task_files
  split
  · exact ⟨h, fun tid2 t hst => hst⟩
  · have hbody : DbInv (filesMapped db tid afp au sfp su) ∧
        StartedStable db (filesMapped db tid afp au sfp su) := by
      unfold filesMapped
      refine ⟨⟨?_, ?_⟩, ?_⟩
      · rw [dbKeys_map_of_keyfix _ (fun x => by split <;> rfl)]
        exact h.1
      · intro x hx hxp
        obtain ⟨y, hy, hyx⟩ := List.mem_map.mp hx
        by_cases hc : (y.task_id == tid) = true
        · rw [if_pos hc] at hyx
          have : y.status = "pending" := by rw [← hyx] at hxp; exact hxp
          have hs := h.2 y hy this
          rw [← hyx]
          exact hs
        · rw [if_neg hc] at hyx
          exact h.2 y hy (hyx ▸ hxp) ▸ (hyx ▸ rfl)
      · exact startedStable_of_pointwise db _ (fun x => by split <;> rfl)
          (fun x => by split <;> rfl)
    split
    · exact ⟨h, fun tid2 t hst => hst⟩
    · exact hbody

theorem step_preserves (op : SysOp) (db : Db) (hop : op.serial = true) (h : DbInv db) :
    DbInv (op.step db) ∧ StartedStable db (op.step db) := by
  cases op with
  | rawClaimUpdate tid now => simp [SysOp.serial] at hop
  | createLong io tid text voice cb now =>
    rcases create_long_text_task_cases io db tid text voice cb now with ⟨e, he⟩ | ⟨hf, hok⟩
    · simp only [SysOp.step, he]
      exact ⟨h, fun tid2 t hst => hst⟩
    · simp only [SysOp.step, hok]
      exact append_fresh_preserves db _ hf (fun _ => rfl) h
  | createOnline io tid text voice cb now =>
    rcases create_online_task_cases io db tid text voice cb now with ⟨e, he⟩ | ⟨hf, hok⟩
    · simp only [SysOp.step, he]
      exact ⟨h, fun tid2 t hst => hst⟩
    · simp only [SysOp.step, hok]
      exact append_fresh_preserves db _ hf (fun _ => rfl) h
  | claim tt now => exact claim_preserves tt now db h
  | complete tid afp au sfp su now =>
    exact updStatus_preserves db tid "completed" afp au sfp su none now (by decide) h
  | fail tid em now =>
    exact updStatus_preserves db tid "failed" none none none none (some em) now
      (by decide) h
  | updFiles tid afp au sfp su => exact updFiles_preserves db tid afp au sfp su h

theorem runOps_preserves (ops : List SysOp) (db : Db)
    (hser : ∀ op ∈ ops, op.serial = true) (h : DbInv db) :
    DbInv (runOps ops db) ∧ StartedStable db (runOps ops db) := by
  induction ops generalizing db with
  | nil => exact ⟨h, fun tid t hst => hst⟩
  | cons op ops ih =>
    have hstep := step_preserves op db (hser op (List.mem_cons_self _ _)) h
    have hrest := ih (op.step db)
      (fun o ho => hser o (List.mem_cons_of_mem _ ho)) hstep.1
    exact ⟨hrest.1, fun tid t hst => hrest.2 tid t (hstep.2 tid t hst)⟩

theorem fsHas_append (fs l : Fs) (p : List String) (h : fsHas fs p = true) :
    fsHas (fs ++ l) p = true := by
  unfold fsHas at *
  rw [List.find?_append]
  cases hf : fs.find? (fun e => e.path == p) with
  | none => rw [hf] at h; cases h
  | some e => rfl

theorem fsHas_mkdirP (fs : Fs) (q p : List String) (h : fsHas fs p = true) :
    fsHas (mkdirP fs q) p = true := by
  unfold mkdirP
  split
  · exact h
  · exact fsHas_append fs _ p h

theorem fsHas_writeFileEntry (fs : Fs) (q p : List String) (h : fsHas fs p = true) :
    fsHas (writeFileEntry fs q) p = true := by
  unfold writeFileEntry
  split
  · exact h
  · exact fsHas_append fs _ p h

theorem fsHas_create_task_directory (fs : Fs) (root tid : String) (p : List String)
    (h : fsHas fs p = true) :
    fsHas (create_task_directory fs root tid) p = true := by
  unfold create_task_directory
  exact fsHas_mkdirP _ _ _ (fsHas_mkdirP _ _ _ (fsHas_mkdirP _ _ _ h))

/-! ## Claim theorems -/

/-- C1 counterexample: the Task Store transition operation does not enforce
the state machine.  On a table holding one `completed` task, the disallowed
transition completed→processing is accepted: `update_task_status` returns
true and rewrites the row to `processing`, instead of the claimed
false-returning no-op. -/
theorem update_task_status_completed_to_processing_accepted :
    (update_task_status [doneRow] "t1" "processing" none none none none none 9).1 = true ∧
    (update_task_status [doneRow] "t1" "processing" none none none none none 9).2
      ≠ [doneRow] ∧
    lookupTask (update_task_status [doneRow] "t1" "processing" none none none none none 9).2
      "t1" = some { doneRow with status := "processing" } := by
  refine ⟨?_, ?_, ?_⟩ <;> decide

/-- C1: amended — `update_task_status` checks only that a row with the given
`task_id` exists, never the current status: a disallowed transition such as
completed→processing succeeds and mutates the row; the operation returns
false when no row matches the `task_id` (and, by MySQL changed-rows
accounting, when the assignments change nothing). -/
theorem update_task_status_unguarded :
    (∀ db tid st afp au sfp su em now, lookupTask db tid = none →
        update_task_status db tid st afp au sfp su em now = (false, db)) ∧
    (∀ db tid afp au sfp su em now r, lookupTask db tid = some r →
        r.status = "completed" →
        (update_task_status db tid "processing" afp au sfp su em now).1 = true ∧
        ∃ r2, lookupTask (update_task_status db tid "processing" afp au sfp su em now).2 tid
            = some r2 ∧ r2.status = "processing") := by
  constructor
  · intro db tid st afp au sfp su em now h
    exact lookupTask_update_status_none h st afp au sfp su em now
  · intro db tid afp au sfp su em now r h hc
    have hsm : lookupTask (statusMapped db tid "processing" afp au sfp su em now) tid
        = some (applyStatusUpdate r "processing" afp au sfp su em now) := by
      rw [← update_task_status_snd]
      exact lookupTask_update_status h "processing" afp au sfp su em now
    have hne : statusMapped db tid "processing" afp au sfp su em now ≠ db := by
      intro hd
      rw [hd, h] at hsm
      have hr := Option.some.inj hsm
      have : r.status = "processing" := by rw [hr]; rfl
      rw [hc] at this
      simp at this
    constructor
    · unfold update_task_status
      rw [if_neg hne]
    · refine ⟨applyStatusUpdate r "processing" afp au sfp su em now, ?_, rfl⟩
      exact lookupTask_update_status h "processing" afp au sfp su em now

/-- C1 witness: the amended statement applied to the empty table (no row:
false no-op) and to the single completed row (invalid transition accepted). -/
theorem update_task_status_unguarded_witness :
    update_task_status [] "t1" "processing" none none none none none 9 = (false, []) ∧
    (update_task_status [doneRow] "t1" "processing" none none none none none 9).1
      = true := by
  obtain ⟨h1, h2⟩ := update_task_status_unguarded
  exact ⟨h1 [] "t1" "processing" none none none none none 9 rfl,
    (h2 [doneRow] "t1" none none none none none 9 doneRow rfl rfl).1⟩

/-- C4 counterexample: pushing the same task twice before it is popped — with
priorities 5 then 1 — leaves **zero** queue entries, not the claimed single
entry with the latest priority: both pushes return False and the store stays
empty, because the queue methods hit the `NameError` on the unbound module
name `config` before reaching Redis. -/
theorem double_push_same_task_id_zero_entries :
    (push_task_to_queue [] "long_text" tdT1 5 10).1 = false ∧
    push_task_to_queue (push_task_to_queue [] "long_text" tdT1 5 10).2 "long_text" tdT1 1 11
      = (false, []) ∧
    totalEntries (push_task_to_queue (push_task_to_queue [] "long_text" tdT1 5 10).2
      "long_text" tdT1 1 11).2 = 0 ∧
    totalEntries (push_task_to_queue (push_task_to_queue [] "long_text" tdT1 5 10).2
      "long_text" tdT1 1 11).2 ≠ 1 := by
  refine ⟨rfl, rfl, rfl, by decide⟩

/-- C4: amended — `push_task_to_queue` never creates or updates a queue entry:
the unbound module-level name `config` raises `NameError` inside the `try`
body, the blanket `except` returns False, and the store is unchanged, so any
number of pushes of a task_id leaves the queue exactly as it was (and the
queue length reads 0).  The try body that never completes would key entries
by the full `json.dumps(task_data)` string, not by the bare task_id. -/
theorem push_task_to_queue_always_rejected :
    ∀ store task_type td priority now,
      push_task_to_queue store task_type td priority now = (false, store) ∧
      get_queue_length (push_task_to_queue store task_type td priority now).2 task_type
        = 0 :=
  fun store tt td p now =>
    ⟨push_task_to_queue_eq store tt td p now,
      get_queue_length_eq (push_task_to_queue store tt td p now).2 tt⟩

/-- C5 counterexample: after pushing tasks with priorities [5, 1, 5, 0] in
that order, the four pops return [None, None, None, None] — not the claimed
[first 5, second 5, 1, 0] — because every push failed on the unbound `config`
name and every pop fails the same way. -/
theorem priority_pushes_pop_nothing :
    fourPops = [none, none, none, none] ∧
    fourPops ≠ [some (jsonEncode tdA), some (jsonEncode tdC), some (jsonEncode tdB),
      some (jsonEncode tdD)] := by
  refine ⟨rfl, by decide⟩

/-- C5: amended — pop never returns an entry: `pop_task_from_queue` always
answers (None, unchanged store), and the pushes of the [5, 1, 5, 0] scenario
leave the store empty, so no ordering is observable at all. -/
theorem pop_task_from_queue_always_empty :
    (∀ store task_type, pop_task_from_queue store task_type = (none, store)) ∧
    afterFourPushes = [] :=
  ⟨pop_task_from_queue_eq, rfl⟩

/-- C10: on every invocation — hence in particular under every internal
failure of the backing store — the three queue operations return their
fallback values instead of raising: push answers False with the store
unchanged, pop answers None with the store unchanged, and the length reads 0;
a failure is indistinguishable from an empty queue or a rejected push.  (The
`NameError` on the unbound `config` name makes every invocation take the
`except` path before Redis is ever consulted.) -/
theorem queue_failures_silent :
    (∀ store task_type td priority now,
        push_task_to_queue store task_type td priority now = (false, store)) ∧
    (∀ store task_type, pop_task_from_queue store task_type = (none, store)) ∧
    (∀ store task_type, get_queue_length store task_type = 0) :=
  ⟨push_task_to_queue_eq, pop_task_from_queue_eq, get_queue_length_eq⟩

/-- C3 counterexample: two workers race on the single pending task `t1`; in
the interleaving where both SELECTs run before either UPDATE (legal, because
the autocommit pool releases the FOR UPDATE lock at the end of the SELECT
statement), **both** `get_next_task` calls return the task — not "exactly one
succeeds and the other returns false". -/
theorem race_both_claim_same_task :
    (raceTwoWorkers [pRow0] 100 101).1 = some pRow0 ∧
    (raceTwoWorkers [pRow0] 100 101).2.1 = some pRow0 ∧
    ¬((((raceTwoWorkers [pRow0] 100 101).1 = some pRow0) ∧
        ¬((raceTwoWorkers [pRow0] 100 101).2.1 = some pRow0)) ∨
      (¬((raceTwoWorkers [pRow0] 100 101).1 = some pRow0) ∧
        ((raceTwoWorkers [pRow0] 100 101).2.1 = some pRow0))) := by
  refine ⟨by decide, by decide, by decide⟩

/-- C3: amended — the claim path is `get_next_task`'s SELECT-then-UPDATE, not
a status-guarded transition.  Run serially it is exclusive: once one call has
claimed a task, no later call can return a task with the same task_id (the
row is no longer pending).  But the two statements are separate autocommit
transactions, so in the interleaving where N workers all SELECT before any
UPDATE, every one of them returns the same pending task. -/
theorem get_next_task_serial_exclusive_interleaved_not :
    (∀ tt tt2 db now now2 r r2 db2 db3,
        get_next_task tt db now = (some r, db2) →
        get_next_task tt2 db2 now2 = (some r2, db3) →
        r2.task_id ≠ r.task_id) ∧
    (∀ db tA tB r, selectPending none db = some r →
        (raceTwoWorkers db tA tB).1 = some r ∧
        (raceTwoWorkers db tA tB).2.1 = some r) := by
  constructor
  · intro tt tt2 db now now2 r r2 db2 db3 h1 h2
    unfold get_next_task at h1 h2
    cases hs1 : selectPending tt db with
    | none => rw [hs1] at h1; cases h1
    | some q =>
      rw [hs1] at h1
      dsimp only at h1
      have hq : q = r := Option.some.inj (congrArg Prod.fst h1)
      have hdb2 : claimUpdate db q.task_id now = db2 := congrArg Prod.snd h1
      cases hs2 : selectPending tt2 db2 with
      | none => rw [hs2] at h2; cases h2
      | some q2 =>
        rw [hs2] at h2
        dsimp only at h2
        have hq2 : q2 = r2 := Option.some.inj (congrArg Prod.fst h2)
        obtain ⟨hq2mem, hq2pm⟩ := selectPending_eq_some hs2
        intro heq
        rw [← hdb2] at hq2mem
        have hq2id : q2.task_id = q.task_id := by rw [hq2, hq, heq]
        have hproc := (mem_claimUpdate_same_tid hq2mem hq2id).1
        have hpend := pendingMatches_status hq2pm
        rw [hproc] at hpend
        simp at hpend
  · intro db tA tB r h
    unfold raceTwoWorkers
    rw [h]
    exact ⟨rfl, rfl⟩

/-- C3 witness: the serial part applied to a two-task table (the second call
claims the other task) and the interleaved part applied to the one-task
race. -/
theorem get_next_task_serial_witness :
    pRow1.task_id ≠ pRow0.task_id ∧
    (raceTwoWorkers [pRow0] 100 101).2.1 = some pRow0 := by
  obtain ⟨h1, h2⟩ := get_next_task_serial_exclusive_interleaved_not
  exact ⟨h1 none none [pRow0, pRow1] 10 11 pRow0 pRow1 _ _ rfl rfl,
    (h2 [pRow0] 100 101 pRow0 rfl).2⟩

/-- C6 counterexample: when the File Store text write fails during creation,
`create_long_text_task` does **not** fail with a storage error — the
exception is swallowed by `_save_text_to_file`, the row is inserted anyway
with a NULL `text_file_path`, the submit endpoint reports success, and a
queue push is attempted for the task. -/
theorem create_swallows_file_store_failure :
    create_long_text_task cioBadSave [] "t1" "hello" "v1" none 5
      = .ok ("t1", [newTaskRow "long_text" "t1" "v1" none none 5]) ∧
    submit_long_text_task cioBadSave [] [] "t1" "hello" "v1" none 0 5
      = .ok ("t1", [newTaskRow "long_text" "t1" "v1" none none 5], []) ∧
    (newTaskRow "long_text" "t1" "v1" none none 5).status = "pending" := by
  refine ⟨rfl, rfl, rfl⟩

/-- C6: amended — a Task Store failure (directory creation or the INSERT
raising) does fail creation synchronously: the error propagates, no row is
appended, and the submit endpoint pushes nothing.  A File Store text-write
failure, however, is swallowed: `_save_text_to_file` returns None and
creation succeeds, inserting the row with a NULL `text_file_path`.
(Independently, a successful submit also adds no queue entry, since
`push_task_to_queue` always fails on the unbound `config` name.) -/
theorem creation_failure_semantics :
    (∀ io db store tid text voice cb p now e,
        create_long_text_task io db tid text voice cb now = .error e →
        submit_long_text_task io db store tid text voice cb p now = .error e) ∧
    (∀ io db tid text voice cb now e, io.dirRes = .error e →
        create_long_text_task io db tid text voice cb now = .error e) ∧
    (∀ io db tid text voice cb now d e, io.dirRes = .ok d → io.insertRes = .error e →
        create_long_text_task io db tid text voice cb now = .error e) ∧
    (∀ io db tid text voice cb now d e, io.dirRes = .ok d →
        io.saveRes = .error e → io.insertRes = .ok () → lookupTask db tid = none →
        create_long_text_task io db tid text voice cb now =
          .ok (tid, db ++ [newTaskRow "long_text" tid voice none cb now])) ∧
    (∀ io db store tid text voice cb p now tid2 db2 store2,
        submit_long_text_task io db store tid text voice cb p now
          = .ok (tid2, db2, store2) → store2 = store) := by
  refine ⟨?_, ?_, ?_, ?_, ?_⟩
  · intro io db store tid text voice cb p now e h
    unfold submit_long_text_task
    rw [h]
  · intro io db tid text voice cb now e hd
    unfold create_long_text_task
    rw [hd]
  · intro io db tid text voice cb now d e hd hins
    unfold create_long_text_task
    rw [hd, hins]
  · intro io db tid text voice cb now d e hd hsave hins hlook
    unfold create_long_text_task
    rw [hd, hins]
    dsimp only
    rw [hlook]
    unfold save_text_to_file
    rw [hsave]
    rfl
  · intro io db store tid text voice cb p now tid2 db2 store2 h
    unfold submit_long_text_task at h
    cases hc : create_long_text_task io db tid text voice cb now with
    | error e => rw [hc] at h; cases h
    | ok v =>
      obtain ⟨a, b⟩ := v
      rw [hc] at h
      dsimp only at h
      rw [push_task_to_queue_eq] at h
      injection h with h3
      have h4 := congrArg (fun x : String × Db × Qstore => x.2.2) h3
      exact h4.symm

/-- C6 witness: the amended statement applied to a failing INSERT (creation
fails, submit fails, nothing enqueued) and to a failing text write (creation
succeeds with a NULL text reference). -/
theorem creation_failure_semantics_witness :
    create_long_text_task cioBadInsert [] "t1" "hello" "v1" none 5
      = .error (PyErr.connectionError "mysql gone away") ∧
    submit_long_text_task cioBadInsert [] [] "t1" "hello" "v1" none 0 5
      = .error (PyErr.connectionError "mysql gone away") ∧
    create_long_text_task cioBadSave [] "t1" "hello" "v1" none 5
      = .ok ("t1", [newTaskRow "long_text" "t1" "v1" none none 5]) := by
  obtain ⟨h1, h2, h3, h4, h5⟩ := creation_failure_semantics
  have hc := h3 cioBadInsert [] "t1" "hello" "v1" none 5 "storage/tasks/t1"
    (PyErr.connectionError "mysql gone away") rfl rfl
  exact ⟨hc, h1 cioBadInsert [] [] "t1" "hello" "v1" none 0 5 _ hc,
    h4 cioBadSave [] "t1" "hello" "v1" none 5 "storage/tasks/t1"
      (PyErr.storageError "disk full") rfl rfl rfl rfl⟩

/-- C2 counterexample: the (spec-modelled) recovery sweep does find the
orphaned task and returns it to `pending`, but the re-push uses the
repository's `push_task_to_queue`, which always fails — the queue stays
empty and the subsequent pop returns None, so the task is **not** poppable by
workers again. -/
theorem recovery_sweep_not_poppable :
    list_orphaned_processing [orphanRow] 1000 100 = ["t1"] ∧
    (recovery_sweep [orphanRow] [] 1000 100).1
      = [{ orphanRow with status := "pending" }] ∧
    (recovery_sweep [orphanRow] [] 1000 100).2 = [] ∧
    (pop_task_from_queue (recovery_sweep [orphanRow] [] 1000 100).2 "long_text").1
      = none := by
  refine ⟨by decide, by decide, rfl, rfl⟩

/-- C2: amended — every `processing` task whose `started_at` is older than
the liveness threshold is discovered by `list_orphaned_processing` (modelled
from the spec, absent from src/) and force-transitioned back to `pending` by
the sweep, after which the Task Store fallback scan can select it again; but
the re-push leaves the Priority Queue untouched (the source's
`push_task_to_queue` always returns False) and popping the queue still
returns None, so the task is not poppable from the queue. -/
theorem recovery_sweep_repend_not_requeued :
    ∀ db store now threshold r t, r ∈ db → r.status = "processing" →
      r.started_at = some t → t + threshold < now →
      r.task_id ∈ list_orphaned_processing db now threshold ∧
      (∀ x ∈ (recovery_sweep db store now threshold).1,
          x.task_id = r.task_id → x.status = "pending") ∧
      (recovery_sweep db store now threshold).2 = store ∧
      (∀ tt, pop_task_from_queue (recovery_sweep db store now threshold).2 tt
        = (none, (recovery_sweep db store now threshold).2)) ∧
      (selectPending none (recovery_sweep db store now threshold).1).isSome = true := by
  intro db store now threshold r t hmem hproc hstart hold
  have hpred : (r.status == "processing" &&
      match r.started_at with
      | some t => decide (t + threshold < now)
      | none => false) = true := by
    rw [hstart, hproc]
    simp [hold]
  have horph : r.task_id ∈ list_orphaned_processing db now threshold := by
    unfold list_orphaned_processing
    exact List.mem_map.mpr ⟨r, List.mem_filter.mpr ⟨hmem, hpred⟩, rfl⟩
  have hcont : (list_orphaned_processing db now threshold).contains r.task_id = true :=
    List.contains_iff_exists_mem_beq.mpr ⟨r.task_id, horph, by simp⟩
  refine ⟨horph, ?_, ?_, ?_, ?_⟩
  · intro x hx hxid
    unfold recovery_sweep at hx
    dsimp only at hx
    obtain ⟨y, hy, hyx⟩ := List.mem_map.mp hx
    by_cases hc : (list_orphaned_processing db now threshold).contains y.task_id = true
    · rw [if_pos hc] at hyx
      rw [← hyx]
    · exfalso
      rw [if_neg hc] at hyx
      apply hc
      have hyr : y.task_id = r.task_id := by rw [hyx]; exact hxid
      rw [hyr]
      exact hcont
  · unfold recovery_sweep
    dsimp only
    exact foldl_push_fixed _ store _ now
  · intro tt
    exact pop_task_from_queue_eq _ tt
  · unfold recovery_sweep
    dsimp only
    have hx : ({ r with status := "pending" } : TaskRow) ∈
        db.map (fun x => if (list_orphaned_processing db now threshold).contains x.task_id
          then { x with status := "pending" } else x) := by
      refine List.mem_map.mpr ⟨r, hmem, ?_⟩
      rw [if_pos hcont]
    exact selectPending_isSome_of_mem hx (by simp [pendingMatches])

/-- C2 witness: the amended statement applied to the single orphaned task
(`processing` since t=0, threshold 100, now 1000). -/
theorem recovery_sweep_repend_witness :
    "t1" ∈ list_orphaned_processing [orphanRow] 1000 100 ∧
    (recovery_sweep [orphanRow] [] 1000 100).2 = [] ∧
    (selectPending none (recovery_sweep [orphanRow] [] 1000 100).1).isSome = true := by
  have h := recovery_sweep_repend_not_requeued [orphanRow] [] 1000 100 orphanRow 0
    (List.mem_singleton.mpr rfl) rfl rfl (by norm_num)
  exact ⟨h.1, h.2.2.1, h.2.2.2.2⟩

/-- C7 counterexample: in the race of `raceTwoWorkers` on the single pending
task (an interleaving the autocommit pool permits, cf. C3), `started_at` is
written **twice**: worker A stamps the pending row at 100, then worker B's
claim UPDATE — the trace step `rawClaimUpdate` — re-stamps the row at 101
although its status is already `processing`, so the second write is not on a
pending→processing transition and the first stamp is lost. -/
theorem started_at_rewritten_in_race :
    lookupStarted (runOps [SysOp.claim none 100] [pRow0]) "t1" = some (some 100) ∧
    (lookupTask (runOps [SysOp.claim none 100] [pRow0]) "t1").map (fun x => x.status)
      = some "processing" ∧
    runOps [SysOp.claim none 100, SysOp.rawClaimUpdate "t1" 101] [pRow0]
      = (raceTwoWorkers [pRow0] 100 101).2.2 ∧
    lookupStarted (raceTwoWorkers [pRow0] 100 101).2.2 "t1" = some (some 101) ∧
    (some (some 101) : Option (Option Nat)) ≠ some (some 100) := by
  refine ⟨by decide, by decide, by decide, by decide, by decide⟩

/-- C7: amended — `started_at` is written by exactly one statement, the claim
UPDATE of `get_next_task`, and by nothing else: `update_task_status` and
`update_task_files` never touch it, freshly created rows have it NULL, and
the queue arm never yields a task (`pop_task_from_queue` always returns
None), so every task a worker processes comes from the fallback scan.  Along
any **serialized** trace (each SELECT immediately followed by its UPDATE) the
stamp is therefore written exactly once, on pending→processing.  The claim
UPDATE is not status-guarded, however, and runs in its own autocommit
transaction: in the interleaving where a second worker selected the same
pending task before the first worker's UPDATE, the second UPDATE re-stamps
`started_at` on the already-`processing` row, so under concurrency the column
can be written more than once and not only on pending→processing. -/
theorem started_at_claim_only_writer_race_rewrites :
    (∀ store tt, pop_task_from_queue store tt = (none, store)) ∧
    (∀ tt db now r db2, get_next_task tt db now = (some r, db2) →
        r.status = "pending" ∧ r ∈ db ∧
        ∀ x ∈ db2, x.task_id = r.task_id →
          x.status = "processing" ∧ x.started_at = some now) ∧
    (∀ db tid st afp au sfp su em now,
        ((update_task_status db tid st afp au sfp su em now).2).map (fun x => x.started_at)
          = db.map (fun x => x.started_at)) ∧
    (∀ db tid afp au sfp su,
        ((update_task_files db tid afp au sfp su).2).map
            (fun x => (x.task_id, x.status, x.started_at))
          = db.map (fun x => (x.task_id, x.status, x.started_at))) ∧
    (∀ io db tid text voice cb now tid2 db2,
        create_long_text_task io db tid text voice cb now = .ok (tid2, db2) →
        db2 = db ++ [newTaskRow "long_text" tid voice (save_text_to_file io.saveRes) cb now]
          ∧ (newTaskRow "long_text" tid voice (save_text_to_file io.saveRes) cb
              now).started_at = none) ∧
    (∀ ops db, (∀ op ∈ ops, op.serial = true) → DbInv db →
        DbInv (runOps ops db) ∧ StartedStable db (runOps ops db)) ∧
    (∀ db r tA tB, selectPending none db = some r →
        (∀ x ∈ claimUpdate db r.task_id tA, x.task_id = r.task_id →
          x.status = "processing" ∧ x.started_at = some tA) ∧
        (∀ x ∈ (raceTwoWorkers db tA tB).2.2, x.task_id = r.task_id →
          x.status = "processing" ∧ x.started_at = some tB)) := by
  refine ⟨pop_task_from_queue_eq, ?_, map_started_at_update_status,
    update_task_files_snd_map, ?_, runOps_preserves, ?_⟩
  · intro tt db now r db2 h
    unfold get_next_task at h
    cases hs : selectPending tt db with
    | none => rw [hs] at h; cases h
    | some q =>
      rw [hs] at h
      dsimp only at h
      have hq : q = r := Option.some.inj (congrArg Prod.fst h)
      have hdb2 : claimUpdate db q.task_id now = db2 := congrArg Prod.snd h
      subst hq
      obtain ⟨hqmem, hqpm⟩ := selectPending_eq_some hs
      refine ⟨pendingMatches_status hqpm, hqmem, ?_⟩
      intro x hx hxid
      rw [← hdb2] at hx
      exact mem_claimUpdate_same_tid hx hxid
  · intro io db tid text voice cb now tid2 db2 h
    rcases create_long_text_task_cases io db tid text voice cb now with ⟨e, he⟩ | ⟨hf, hok⟩
    · rw [he] at h; cases h
    · rw [hok] at h
      injection h with h2
      exact ⟨(congrArg Prod.snd h2).symm, rfl⟩
  · intro db r tA tB hsel
    refine ⟨fun x hx hxid => mem_claimUpdate_same_tid hx hxid, ?_⟩
    unfold raceTwoWorkers
    rw [hsel]
    dsimp only
    intro x hx hxid
    exact mem_claimUpdate_same_tid hx hxid

/-- C7 witness: the queue arm yields nothing; claiming the pending fixture
stamps it; a serialized `completed` transition afterwards leaves the stamp
unchanged; and the race conjunct applied to the one-task table shows the
re-stamp at the second worker's time. -/
theorem started_at_claim_only_writer_witness :
    pop_task_from_queue [] "online" = (none, []) ∧
    pRow0.status = "pending" ∧
    lookupStarted (runOps [SysOp.complete "t1" none none none none 9] [procRow]) "t1"
      = some (some 4) ∧
    ({ pRow0 with status := "processing", started_at := some 101 } : TaskRow).started_at
      = some 101 := by
  obtain ⟨hpop, hclaim, hupd, hfiles, hcreate, hrun, hrace⟩ :=
    started_at_claim_only_writer_race_rewrites
  refine ⟨hpop [] "online", (hclaim none [pRow0] 7 pRow0 _ rfl).1, ?_, ?_⟩
  · have hinv : DbInv [procRow] := by
      constructor
      · decide
      · intro x hx hp
        rw [List.mem_singleton.mp hx] at hp
        simp [procRow] at hp
    exact (hrun [SysOp.complete "t1" none none none none 9] [procRow]
      (by intro op hop; rw [List.mem_singleton.mp hop]; rfl) hinv).2 "t1" 4 rfl
  · exact ((hrace [pRow0] pRow0 100 101 rfl).2
      { pRow0 with status := "processing", started_at := some 101 } (by decide) rfl).2

/-- C8: any exception raised while synthesizing or persisting (the engine
call, the audio write, or the subtitle write failing) is caught by
`process_task`'s blanket `except`: the function still returns — with False —
after transitioning the task to `failed` with `error_message = str(e)`, which
is non-null; the exception is never re-raised. -/
theorem worker_absorbs_processing_failures :
    ∀ io root td db now r, lookupTask db td.task_id = some r →
      ((∃ e, io.synth = Except.error e) ∨ (∃ e, io.saveAudioRes = Except.error e) ∨
        (∃ e, io.saveSrtRes = Except.error e)) →
      ∃ e, processAttempt io root td db now = .error e ∧
        process_task io root td db now =
          (false, (update_task_status db td.task_id "failed" none none none none
            (some (PyErr.msg e)) now).2) ∧
        ∃ r2, lookupTask (process_task io root td db now).2 td.task_id = some r2 ∧
          r2.status = "failed" ∧ r2.error_message = some (PyErr.msg e) := by
  intro io root td db now r hlook hfail
  have hatt : ∃ e, processAttempt io root td db now = .error e := by
    unfold processAttempt
    cases hs : io.synth with
    | error e => exact ⟨e, rfl⟩
    | ok v =>
      obtain ⟨sr, ns⟩ := v
      cases ha : io.saveAudioRes with
      | error e => exact ⟨e, rfl⟩
      | ok u =>
        cases hsrt : io.saveSrtRes with
        | error e => exact ⟨e, rfl⟩
        | ok u2 =>
          exfalso
          rcases hfail with ⟨e, he⟩ | ⟨e, he⟩ | ⟨e, he⟩ <;> simp_all
  obtain ⟨e, he⟩ := hatt
  have hpt : process_task io root td db now =
      (false, (update_task_status db td.task_id "failed" none none none none
        (some (PyErr.msg e)) now).2) := by
    unfold process_task
    rw [he]
  refine ⟨e, he, hpt, ?_⟩
  rw [hpt]
  exact ⟨applyStatusUpdate r "failed" none none none none (some (PyErr.msg e)) now,
    lookupTask_update_status hlook "failed" none none none none (some (PyErr.msg e)) now,
    rfl, rfl⟩

/-- C8 witness: the statement applied to a crashing engine on the fixture
task: `process_task` returns normally with False and the row reads
`failed`. -/
theorem worker_absorbs_failures_witness :
    (process_task eioBadSynth "storage" tdT1 [procRow] 9).1 = false ∧
    (lookupTask (process_task eioBadSynth "storage" tdT1 [procRow] 9).2
        tdT1.task_id).map (fun x => x.status) = some "failed" ∧
    (lookupTask (process_task eioBadSynth "storage" tdT1 [procRow] 9).2
        tdT1.task_id).map (fun x => x.error_message) = some (some "engine crash") := by
  obtain ⟨e, he, hpt, r2, hl, hs, hm⟩ :=
    worker_absorbs_processing_failures eioBadSynth "storage" tdT1 [procRow] 9 procRow rfl
      (Or.inl ⟨PyErr.synthesisError "engine crash", rfl⟩)
  have hmsg : PyErr.msg e = "engine crash" := by
    have : e = PyErr.synthesisError "engine crash" := by
      have h0 : processAttempt eioBadSynth "storage" tdT1 [procRow] 9
          = .error (PyErr.synthesisError "engine crash") := rfl
      rw [h0] at he
      exact (Except.error.inj he).symm
    rw [this]
    rfl
  refine ⟨by rw [hpt], ?_, ?_⟩
  · rw [hl]
    simp [hs]
  · rw [hl]
    simp [hm, hmsg]

/-- C9 counterexample: a `completed` task 8+ days old is returned by the
expired-task query, but the directory the cleanup job operates on is
`storage_root/<task_id>`, not the File Store's per-task directory
`storage_root/tasks/<task_id>`; on the layout the File Store actually
produced, the target does not exist, the job removes nothing, and the task's
directory survives. -/
theorem cleanup_targets_wrong_directory :
    get_expired_tasks [doneRow] (10 * secondsPerDay) 7 = ["t1"] ∧
    cleanupTarget "storage" "t1" ≠ get_task_directory "storage" "t1" ∧
    cleanup_task_files fsLayoutT1 "storage" "t1" = (true, fsLayoutT1) ∧
    fsHas fsLayoutT1 (get_task_directory "storage" "t1") = true := by
  refine ⟨by decide, by decide, by decide, by decide⟩

/-- C9: amended — the expired-task query does return every `completed` row
whose `completed_at` is older than the retention window; but the cleanup job
removes, at most, `storage_root/<task_id>` — never the File Store's
`storage_root/tasks/<task_id>` directory (the two paths always differ); when
its target is missing it deletes nothing and reports success, and when the
target is a directory the `shutil.rmtree` call raises `NameError` (`shutil`
is not imported) and the job deletes nothing and reports failure.  The File
Store's own write operations only ever add entries, so the core never removes
task files. -/
theorem cleanup_and_retention_semantics :
    (∀ db now days r t, r ∈ db → r.status = "completed" → r.completed_at = some t →
        t < now - days * secondsPerDay → r.task_id ∈ get_expired_tasks db now days) ∧
    (∀ root tid, cleanupTarget root tid ≠ get_task_directory root tid) ∧
    (∀ fs root tid, fsHas fs (cleanupTarget root tid) = false →
        cleanup_task_files fs root tid = (true, fs)) ∧
    (∀ fs root tid e, fs.find? (fun x => x.path == cleanupTarget root tid) = some e →
        e.isDir = true → cleanup_task_files fs root tid = (false, fs)) ∧
    (∀ fs root tid p, fsHas fs p = true →
        fsHas (save_text_file fs root tid) p = true ∧
        fsHas (save_audio_file fs root tid) p = true ∧
        fsHas (save_srt_file fs root tid) p = true) := by
  refine ⟨?_, ?_, ?_, ?_, ?_⟩
  · intro db now days r t hmem hst hct hlt
    unfold get_expired_tasks
    refine List.mem_map.mpr ⟨r, List.mem_filter.mpr ⟨hmem, ?_⟩, rfl⟩
    rw [hct, hst]
    simp [hlt]
  · intro root tid h
    have := congrArg List.length h
    simp [cleanupTarget, get_task_directory] at this
  · intro fs root tid h
    have hn : fs.find? (fun e => e.path == cleanupTarget root tid) = none := by
      have h2 : (fs.find? (fun e => e.path == cleanupTarget root tid)).isSome = false := h
      exact Option.not_isSome_iff_eq_none.mp (by rw [h2]; exact Bool.false_ne_true)
    unfold cleanup_task_files
    rw [hn]
  · intro fs root tid e hfind hdir
    unfold cleanup_task_files
    rw [hfind]
    dsimp only
    rw [if_pos hdir]
  · intro fs root tid p h
    exact ⟨fsHas_writeFileEntry _ _ _ (fsHas_create_task_directory _ _ _ _ h),
      fsHas_writeFileEntry _ _ _ (fsHas_create_task_directory _ _ _ _ h),
      fsHas_writeFileEntry _ _ _ (fsHas_create_task_directory _ _ _ _ h)⟩

/-- C9 witness: the amended statement applied to the 8-day-old completed
fixture, its File Store layout, and a later audio write. -/
theorem cleanup_and_retention_witness :
    "t1" ∈ get_expired_tasks [doneRow] (10 * secondsPerDay) 7 ∧
    cleanup_task_files fsLayoutT1 "storage" "t1" = (true, fsLayoutT1) ∧
    fsHas (save_audio_file fsLayoutT1 "storage" "t1")
      (get_text_file_path "storage" "t1") = true := by
  obtain ⟨h1, h2, h3, h4, h5⟩ := cleanup_and_retention_semantics
  refine ⟨h1 [doneRow] (10 * secondsPerDay) 7 doneRow 50 (List.mem_singleton.mpr rfl)
    rfl rfl (by norm_num [secondsPerDay]), ?_, ?_⟩
  · exact h3 fsLayoutT1 "storage" "t1" (by decide)
  · exact (h5 fsLayoutT1 "storage" "t1" (get_text_file_path "storage" "t1")
      (by decide)).2.1
